import Mathlib

/- Shallow embedding of the event-sourced workout engine in
`backend/events.py` (precondition validator, projection updater, and the
`emit_event` transaction), together with the payload schemas of
`backend/schema/events.py`.  Weights are modelled as exact rationals and
machine floats are read as their decimal literals; payloads are modelled in
their schema-validated form (every schema field present, optional fields as
`Option`). -/

namespace GymApp

/-- Weight unit enumeration (`WeightUnit` in `schema/events.py`). -/
inductive WeightUnit
  | kg
  | lb
deriving DecidableEq, Repr

/-- Pound-to-kilogram conversion factor used by the stats computation in the
`WorkoutCompleted` branch of `update_projections` (1 lb = 0.453592 kg). -/
def lbToKg : ℚ := 0.453592

/-- One logged set inside the `current_workout` projection, as built by the
`SetLogged` branch of `update_projections`: the dict
`{event_id, weight, reps, unit}`.  All four keys are always present because
the dict is only ever created from a schema-validated `SetLogged` payload. -/
structure SetEntry where
  event_id : String
  weight : ℚ
  reps : ℕ
  unit : WeightUnit
deriving DecidableEq, Repr

/-- One exercise entry of the `current_workout` projection:
`{exercise_id, sets}`. -/
structure Exercise where
  exercise_id : String
  sets : List SetEntry
deriving DecidableEq, Repr

/-- The `current_workout` projection value as created by the
`WorkoutStarted` branch of `update_projections`. -/
structure Workout where
  id : String
  started_at : String
  from_template_id : Option String
  focus_exercise : Option String
  exercises : List Exercise
deriving DecidableEq, Repr

/-- The `stats` dict attached to a completed workout. -/
structure Stats where
  exercise_count : ℕ
  total_sets : ℕ
  total_volume : ℚ
deriving DecidableEq, Repr

/-- A `workout_history` entry: the completed workout snapshot with the
`completed_at`, `notes` and `stats` keys the `WorkoutCompleted` branch adds.
`notes` comes from the validated payload, whose `notes` key is always present
but may be `None`. -/
structure HistoryEntry where
  workout : Workout
  completed_at : String
  notes : Option String
  stats : Stats
deriving DecidableEq, Repr

/-- A `workout_templates` record exactly as the `TemplateCreated` branch of
`update_projections` builds it: the dict literal has keys
`id, name, exercise_ids, source_workout_id, created_at, last_used_at,
use_count` and no others; in particular it has no `exercises` key.
`updated_at` is added by the `TemplateUpdated` branch and is absent
(modelled `none`) until then. -/
structure Template where
  id : String
  name : String
  exercise_ids : Option (List String)
  source_workout_id : Option String
  created_at : String
  last_used_at : Option String
  updated_at : Option String
  use_count : ℕ
deriving DecidableEq, Repr

/-- The three projections of one user.  The backing `projections` table keys
rows by projection name (`key` is the primary key), so each user has exactly
one slot per projection; `current_workout` holds `None` or a single workout
dict. -/
structure Projections where
  current_workout : Option Workout
  workout_history : List HistoryEntry
  workout_templates : List Template
deriving DecidableEq, Repr

/-- Schema-validated `WorkoutStarted` payload.  The `exercise_plans` field of
the schema is never read by the validator or the updater and is omitted. -/
structure WorkoutStartedPayload where
  workout_id : String
  name : Option String
  from_template_id : Option String
  exercise_ids : Option (List String)
deriving DecidableEq, Repr

/-- Schema-validated `WorkoutCompleted` payload. -/
structure WorkoutCompletedPayload where
  workout_id : String
  notes : Option String
deriving DecidableEq, Repr

/-- Schema-validated `WorkoutDiscarded` payload. -/
structure WorkoutDiscardedPayload where
  workout_id : String
  reason : Option String
deriving DecidableEq, Repr

/-- Schema-validated `ExerciseAdded` payload. -/
structure ExerciseAddedPayload where
  workout_id : String
  exercise_id : String
deriving DecidableEq, Repr

/-- Schema-validated `SetLogged` payload (`weight` and `reps` must be
positive, checked by the schema layer; `unit` defaults to kilograms). -/
structure SetLoggedPayload where
  workout_id : String
  exercise_id : String
  weight : ℚ
  reps : ℕ
  unit : WeightUnit
deriving DecidableEq, Repr

/-- Schema-validated `SetModified` payload: `weight`, `reps` and `unit` are
optional partial updates. -/
structure SetModifiedPayload where
  workout_id : String
  original_event_id : String
  weight : Option ℚ
  reps : Option ℕ
  unit : Option WeightUnit
deriving DecidableEq, Repr

/-- Schema-validated `SetDeleted` payload. -/
structure SetDeletedPayload where
  workout_id : String
  original_event_id : String
  reason : Option String
deriving DecidableEq, Repr

/-- A new-format template exercise spec (`TemplateExercise` in the schema).
Only its presence matters to the engine: the updater never reads any of its
fields, so the target/set-group fields are not modelled. -/
structure TemplateExercise where
  exercise_id : String
deriving DecidableEq, Repr

/-- Schema-validated `TemplateCreated` payload; it may carry the legacy
`exercise_ids` list or the new-format `exercises` list. -/
structure TemplateCreatedPayload where
  template_id : String
  name : String
  exercise_ids : Option (List String)
  exercises : Option (List TemplateExercise)
  source_workout_id : Option String
deriving DecidableEq, Repr

/-- Schema-validated `TemplateUpdated` payload. -/
structure TemplateUpdatedPayload where
  template_id : String
  name : Option String
  exercise_ids : Option (List String)
  exercises : Option (List TemplateExercise)
deriving DecidableEq, Repr

/-- Schema-validated `TemplateDeleted` payload. -/
structure TemplateDeletedPayload where
  template_id : String
deriving DecidableEq, Repr

/-- An event tagged by its type, mirroring the `EventType` dispatch of the
engine (a tagged union of the per-type payload schemas). -/
inductive EventPayload
  | workoutStarted (p : WorkoutStartedPayload)
  | workoutCompleted (p : WorkoutCompletedPayload)
  | workoutDiscarded (p : WorkoutDiscardedPayload)
  | exerciseAdded (p : ExerciseAddedPayload)
  | setLogged (p : SetLoggedPayload)
  | setModified (p : SetModifiedPayload)
  | setDeleted (p : SetDeletedPayload)
  | templateCreated (p : TemplateCreatedPayload)
  | templateUpdated (p : TemplateUpdatedPayload)
  | templateDeleted (p : TemplateDeletedPayload)
deriving DecidableEq, Repr

/-- The `set_found` scan of `validate_event_preconditions` for
`SetModified` and `SetDeleted`: some set of some exercise of the workout has
the given `event_id`. -/
def workoutHasSetWithId (w : Workout) (oid : String) : Bool :=
  w.exercises.any (fun e => e.sets.any (fun s => s.event_id == oid))

/-- The precondition validator `validate_event_preconditions` of
`backend/events.py`: given the event and the current projections it either
accepts or raises `ValueError` (modelled as `Except.error` with the message).
Every error surfaces to the API as a `PreconditionViolation` (HTTP 400). -/
def validate_event_preconditions (ev : EventPayload) (proj : Projections) :
    Except String Unit :=
  match ev with
  | .workoutStarted _ =>
    match proj.current_workout with
    | some _ => .error "Cannot start workout: workout already in progress"
    | none => .ok ()
  | .exerciseAdded p =>
    match proj.current_workout with
    | none => .error "Cannot add exercise: no active workout"
    | some cur =>
      if p.workout_id ≠ cur.id then
        .error ("Event workout_id " ++ p.workout_id ++
          " does not match current workout " ++ cur.id)
      else if cur.exercises.any (fun e => e.exercise_id == p.exercise_id) then
        .error ("Exercise " ++ p.exercise_id ++ " already in workout")
      else .ok ()
  | .setLogged p =>
    match proj.current_workout with
    | none => .error "Cannot log set: no active workout"
    | some cur =>
      if p.workout_id ≠ cur.id then
        .error ("Event workout_id " ++ p.workout_id ++
          " does not match current workout " ++ cur.id)
      else if cur.exercises.any (fun e => e.exercise_id == p.exercise_id) then
        .ok ()
      else
        .error ("Exercise " ++ p.exercise_id ++
          " not in current workout. Add it with ExerciseAdded first.")
  | .setDeleted p =>
    match proj.current_workout with
    | none => .error "Cannot delete set: no active workout"
    | some cur =>
      if p.workout_id ≠ cur.id then
        .error ("Event workout_id " ++ p.workout_id ++
          " does not match current workout " ++ cur.id)
      else if workoutHasSetWithId cur p.original_event_id then .ok ()
      else
        .error ("Set with event_id " ++ p.original_event_id ++
          " not found in current workout")
  | .setModified p =>
    match proj.current_workout with
    | none => .error "Cannot modify set: no active workout"
    | some cur =>
      if p.workout_id ≠ cur.id then
        .error ("Event workout_id " ++ p.workout_id ++
          " does not match current workout " ++ cur.id)
      else if workoutHasSetWithId cur p.original_event_id then .ok ()
      else
        .error ("Set with event_id " ++ p.original_event_id ++
          " not found in current workout")
  | .templateCreated p =>
    if proj.workout_templates.any (fun t => t.id == p.template_id) then
      .error ("Template " ++ p.template_id ++ " already exists")
    else .ok ()
  | .templateUpdated p =>
    if proj.workout_templates.any (fun t => t.id == p.template_id) then .ok ()
    else .error ("Template " ++ p.template_id ++ " not found")
  | .templateDeleted p =>
    if proj.workout_templates.any (fun t => t.id == p.template_id) then .ok ()
    else .error ("Template " ++ p.template_id ++ " not found")
  | .workoutCompleted p =>
    match proj.current_workout with
    | none => .error "Cannot complete workout: no active workout"
    | some cur =>
      if p.workout_id ≠ cur.id then
        .error ("Event workout_id " ++ p.workout_id ++
          " does not match current workout " ++ cur.id)
      else .ok ()
  | .workoutDiscarded p =>
    match proj.current_workout with
    | none => .error "Cannot discard workout: no active workout"
    | some cur =>
      if p.workout_id ≠ cur.id then
        .error ("Event workout_id " ++ p.workout_id ++
          " does not match current workout " ++ cur.id)
      else .ok ()

/-- Per-set contribution to `total_volume` in the `WorkoutCompleted` branch:
the weight normalized to kilograms times the rep count. -/
def setVolumeKg (s : SetEntry) : ℚ :=
  (if s.unit = WeightUnit.kg then s.weight else s.weight * lbToKg) * (s.reps : ℚ)

/-- The `total_sets` computation of the `WorkoutCompleted` branch: the sum of
the set counts over all exercise entries. -/
def workoutTotalSets (w : Workout) : ℕ :=
  (w.exercises.map (fun e => e.sets.length)).sum

/-- The `total_volume_kg` accumulation loop of the `WorkoutCompleted`
branch. -/
def workoutTotalVolume (w : Workout) : ℚ :=
  (w.exercises.map (fun e => (e.sets.map setVolumeKg).sum)).sum

/-- Field updates applied to a located set by the `SetModified` branch: each
of `weight`, `reps`, `unit` is overwritten only when the payload supplies it
(`is not None`). -/
def applySetMods (p : SetModifiedPayload) (s : SetEntry) : SetEntry :=
  { s with
    weight := p.weight.getD s.weight
    reps := p.reps.getD s.reps
    unit := p.unit.getD s.unit }

/-- Inner loop of the `SetModified` branch over one exercise's sets: modify
the first set whose `event_id` matches and stop; the boolean is the
`set_modified` flag. -/
def modifySetInList (p : SetModifiedPayload) : List SetEntry → List SetEntry × Bool
  | [] => ([], false)
  | s :: rest =>
    if s.event_id == p.original_event_id then
      (applySetMods p s :: rest, true)
    else
      let r := modifySetInList p rest
      (s :: r.1, r.2)

/-- Outer loop of the `SetModified` branch: scan exercises until one
contains a matching set, modify there, and stop. -/
def modifySetInExercises (p : SetModifiedPayload) : List Exercise → List Exercise
  | [] => []
  | e :: rest =>
    let r := modifySetInList p e.sets
    if r.2 then { e with sets := r.1 } :: rest
    else e :: modifySetInExercises p rest

/-- Loop of the `SetDeleted` branch: each exercise's sets are filtered to
drop sets with the matching `event_id`; the scan stops at the first exercise
whose set list shrank. -/
def deleteSetInExercises (oid : String) : List Exercise → List Exercise
  | [] => []
  | e :: rest =>
    let filtered := e.sets.filter (fun s => s.event_id != oid)
    if filtered.length < e.sets.length then
      { e with sets := filtered } :: rest
    else
      { e with sets := filtered } :: deleteSetInExercises oid rest

/-- Lookup of the `SetLogged` branch (`next(...)` over the exercises): the
set is appended to the first exercise whose id matches; the boolean records
whether a matching exercise was found. -/
def logSetInExercises (newSet : SetEntry) (exId : String) :
    List Exercise → List Exercise × Bool
  | [] => ([], false)
  | e :: rest =>
    if e.exercise_id == exId then
      ({ e with sets := e.sets ++ [newSet] } :: rest, true)
    else
      let r := logSetInExercises newSet exId rest
      (e :: r.1, r.2)

/-- Template-usage tracking loop of the `WorkoutStarted` branch: the first
template whose id matches gets `last_used_at` set to the event timestamp and
`use_count` incremented, then the loop stops. -/
def bumpTemplateUsage (tid ts : String) : List Template → List Template
  | [] => []
  | t :: rest =>
    if t.id == tid then
      { t with last_used_at := some ts, use_count := t.use_count + 1 } :: rest
    else t :: bumpTemplateUsage tid ts rest

/-- Loop of the `TemplateUpdated` branch: the first template whose id
matches gets `name` and `exercise_ids` overwritten when supplied and
`updated_at` stamped, then the loop stops.  The payload's new-format
`exercises` field is never read. -/
def patchTemplate (p : TemplateUpdatedPayload) (ts : String) :
    List Template → List Template
  | [] => []
  | t :: rest =>
    if t.id == p.template_id then
      let newIds := match p.exercise_ids with
        | some l => some l
        | none => t.exercise_ids
      { t with
        name := p.name.getD t.name
        exercise_ids := newIds
        updated_at := some ts } :: rest
    else t :: patchTemplate p ts rest

/-- Derived data returned by `update_projections`: the
`{"total_sets", "total_volume"}` dict produced when a `WorkoutCompleted`
event folds an active workout into history.  All other branches return no
derived values (the code returns `None` or an empty dict, both carrying no
data, modelled as `none`). -/
structure Derived where
  total_sets : ℕ
  total_volume : ℚ
deriving DecidableEq, Repr

/-- The projection updater `update_projections` of `backend/events.py`:
fold one event (with its assigned `event_id` and append timestamp) into the
prior projections, returning the new projections and any derived data. -/
def update_projections (ev : EventPayload) (event_id ts : String)
    (proj : Projections) : Projections × Option Derived :=
  match ev with
  | .workoutStarted p =>
    let exIds := p.exercise_ids.getD []
    let w : Workout :=
      { id := p.workout_id
        started_at := ts
        from_template_id := p.from_template_id
        focus_exercise := exIds.head?
        exercises := exIds.map (fun i => { exercise_id := i, sets := [] }) }
    let templates :=
      match p.from_template_id with
      | some tid =>
        if tid ≠ "" then bumpTemplateUsage tid ts proj.workout_templates
        else proj.workout_templates
      | none => proj.workout_templates
    ({ proj with current_workout := some w, workout_templates := templates },
      none)
  | .workoutCompleted p =>
    match proj.current_workout with
    | some cur =>
      let totalSets := workoutTotalSets cur
      let totalVolume := workoutTotalVolume cur
      let entry : HistoryEntry :=
        { workout := cur
          completed_at := ts
          notes := p.notes
          stats :=
            { exercise_count := cur.exercises.length
              total_sets := totalSets
              total_volume := totalVolume } }
      ({ proj with
          current_workout := none
          workout_history := entry :: proj.workout_history },
        some { total_sets := totalSets, total_volume := totalVolume })
    | none => ({ proj with current_workout := none }, none)
  | .workoutDiscarded _ => ({ proj with current_workout := none }, none)
  | .exerciseAdded p =>
    match proj.current_workout with
    | none => (proj, none)
    | some cur =>
      let cur' :=
        { cur with
          exercises := cur.exercises ++ [{ exercise_id := p.exercise_id, sets := [] }]
          focus_exercise := some p.exercise_id }
      ({ proj with current_workout := some cur' }, none)
  | .setLogged p =>
    match proj.current_workout with
    | none => (proj, none)
    | some cur =>
      let newSet : SetEntry :=
        { event_id := event_id, weight := p.weight, reps := p.reps, unit := p.unit }
      let r := logSetInExercises newSet p.exercise_id cur.exercises
      if r.2 then
        ({ proj with
            current_workout := some { cur with
              exercises := r.1
              focus_exercise := some p.exercise_id } },
          none)
      else (proj, none)
  | .setDeleted p =>
    match proj.current_workout with
    | none => (proj, none)
    | some cur =>
      let cur' := { cur with exercises := deleteSetInExercises p.original_event_id cur.exercises }
      ({ proj with current_workout := some cur' }, none)
  | .setModified p =>
    match proj.current_workout with
    | none => (proj, none)
    | some cur =>
      let cur' := { cur with exercises := modifySetInExercises p cur.exercises }
      ({ proj with current_workout := some cur' }, none)
  | .templateCreated p =>
    let t : Template :=
      { id := p.template_id
        name := p.name
        exercise_ids := p.exercise_ids
        source_workout_id := p.source_workout_id
        created_at := ts
        last_used_at := none
        updated_at := none
        use_count := 0 }
    ({ proj with workout_templates := proj.workout_templates ++ [t] }, none)
  | .templateUpdated p =>
    ({ proj with workout_templates := patchTemplate p ts proj.workout_templates }, none)
  | .templateDeleted p =>
    ({ proj with
        workout_templates := proj.workout_templates.filter (fun t => t.id != p.template_id) },
      none)

/-- The numeric constraints of `validate_payload` in `schema/events.py` that
are not already captured by the embedding's types: `SetLogged` requires
`weight > 0` and `reps > 0`, `SetModified` requires the same of any supplied
`weight`/`reps`.  The remaining schema checks are type/shape checks that the
typed payloads enforce by construction. -/
def validate_payload_ok : EventPayload → Bool
  | .setLogged p => decide (0 < p.weight) && decide (0 < p.reps)
  | .setModified p =>
    (match p.weight with
     | some w => decide (0 < w)
     | none => true) &&
    (match p.reps with
     | some r => decide (0 < r)
     | none => true)
  | _ => true

/-- Rejections surfaced by `emit_event`: a pydantic schema failure, or a
`ValueError` from the precondition validator (mapped to HTTP 400
`PreconditionViolation`).  Lock conflicts are concurrency phenomena outside
this sequential model. -/
inductive EmitError
  | schemaInvalid
  | preconditionViolation (msg : String)
deriving DecidableEq, Repr

/-- A record of the append-only event store: `event_id`, append timestamp
and the validated payload. -/
structure StoredEvent where
  event_id : String
  timestamp : String
  payload : EventPayload
deriving DecidableEq, Repr

/-- One user's engine state: the ordered event log plus the live
projections. -/
structure EngineState where
  events : List StoredEvent
  proj : Projections
deriving DecidableEq, Repr

/-- The empty projection set of a fresh user. -/
def emptyProjections : Projections :=
  { current_workout := none, workout_history := [], workout_templates := [] }

/-- A fresh user's engine state: empty log, empty projections. -/
def initialState : EngineState :=
  { events := [], proj := emptyProjections }

/-- The transaction `emit_event` of `backend/events.py`: validate the
payload schema, validate preconditions against the live projections, append
the event, and fold it into the projections — all inside one transaction.
The returned state is the caller-visible state after the call: unchanged on
any rejection, committed on success.  The fresh `event_id` and the append
timestamp are parameters (uuid and clock are external). -/
def emit_event (ev : EventPayload) (event_id ts : String) (st : EngineState) :
    EngineState × Except EmitError (StoredEvent × Option Derived) :=
  if validate_payload_ok ev then
    match validate_event_preconditions ev st.proj with
    | .error m => (st, .error (.preconditionViolation m))
    | .ok _ =>
      let r := update_projections ev event_id ts st.proj
      let e : StoredEvent := { event_id := event_id, timestamp := ts, payload := ev }
      ({ events := st.events ++ [e], proj := r.1 }, .ok (e, r.2))
  else (st, .error .schemaInvalid)

/-- One replay step: fold a stored event through the projection updater. -/
def applyStored (proj : Projections) (e : StoredEvent) : Projections :=
  (update_projections e.payload e.event_id e.timestamp proj).1

/-- Replay of an ordered event log from empty projections. -/
def replay (events : List StoredEvent) : Projections :=
  events.foldl applyStored emptyProjections

/-- Engine states reachable from a fresh user by any sequence of
`emit_event` calls (accepted or rejected). -/
inductive Reachable : EngineState → Prop
  | init : Reachable initialState
  | step (ev : EventPayload) (eid ts : String) (st : EngineState) :
      Reachable st → Reachable (emit_event ev eid ts st).1

/-- Sample active workout used to instantiate hypotheses at concrete
inputs. -/
def sampleWorkout : Workout :=
  { id := "w1"
    started_at := "2026-01-01T10:00:00Z"
    from_template_id := none
    focus_exercise := some "bench-press"
    exercises :=
      [{ exercise_id := "bench-press"
         sets := [{ event_id := "s1", weight := 100, reps := 8, unit := .kg }] }] }

/-- Sample engine state with `sampleWorkout` active. -/
def sampleActiveState : EngineState :=
  { events := []
    proj :=
      { current_workout := some sampleWorkout
        workout_history := []
        workout_templates := [] } }

/-- Concrete workout matching the spec's volume example: one set
`weight=100, reps=8, unit=kg` and one set `weight=50, reps=10, unit=lb`, in
two distinct exercises. -/
def volumeExampleWorkout : Workout :=
  { id := "w1"
    started_at := "2026-01-01T10:00:00Z"
    from_template_id := none
    focus_exercise := some "squat"
    exercises :=
      [{ exercise_id := "bench-press"
         sets := [{ event_id := "s1", weight := 100, reps := 8, unit := .kg }] },
       { exercise_id := "squat"
         sets := [{ event_id := "s2", weight := 50, reps := 10, unit := .lb }] }] }

/-- Projection set holding `volumeExampleWorkout` as the active workout. -/
def volumeExampleProjections : Projections :=
  { current_workout := some volumeExampleWorkout
    workout_history := []
    workout_templates := [] }

/-- Template with the empty string as id, legal at creation since
`TemplateCreatedPayload.template_id` is an arbitrary string. -/
def emptyIdTemplate : Template :=
  { id := ""
    name := "legacy"
    exercise_ids := some ["bench-press"]
    source_workout_id := none
    created_at := "2026-01-01T09:00:00Z"
    last_used_at := none
    updated_at := none
    use_count := 0 }

/-- Engine state holding only `emptyIdTemplate`, with no active workout. -/
def emptyIdTemplateState : EngineState :=
  { events := []
    proj :=
      { current_workout := none
        workout_history := []
        workout_templates := [emptyIdTemplate] } }

/-- A `WorkoutStarted` payload that names `emptyIdTemplate` through
`from_template_id = some ""`. -/
def startFromEmptyIdPayload : WorkoutStartedPayload :=
  { workout_id := "w9"
    name := none
    from_template_id := some ""
    exercise_ids := none }

/-- New-format `TemplateCreated` payload: exercise list supplied through
`exercises`, not through the legacy `exercise_ids`.  This is exactly the
payload shape the `create_template` endpoint in `api/templates.py` emits for
requests using the new format. -/
def newFormatTemplatePayload : TemplateCreatedPayload :=
  { template_id := "T1"
    name := "Push Day"
    exercise_ids := none
    exercises := some [{ exercise_id := "bench-press" }]
    source_workout_id := none }

/-- Set targeted by the partial-modify example. -/
def c6TargetSet : SetEntry :=
  { event_id := "sT", weight := 80, reps := 5, unit := .kg }

/-- Bystander set in the first exercise of the partial-modify example. -/
def c6OtherSetA : SetEntry :=
  { event_id := "sA", weight := 60, reps := 12, unit := .lb }

/-- Bystander set before the target in the partial-modify example. -/
def c6OtherSetB : SetEntry :=
  { event_id := "sB", weight := 70, reps := 10, unit := .kg }

/-- Bystander set after the target in the partial-modify example. -/
def c6OtherSetC : SetEntry :=
  { event_id := "sC", weight := 90, reps := 3, unit := .kg }

/-- First exercise of the partial-modify example (contains no target). -/
def c6Exercise1 : Exercise :=
  { exercise_id := "bench-press", sets := [c6OtherSetA] }

/-- Second exercise of the partial-modify example (contains the target). -/
def c6Exercise2 : Exercise :=
  { exercise_id := "squat", sets := [c6OtherSetB, c6TargetSet, c6OtherSetC] }

/-- Active workout of the partial-modify example. -/
def c6Workout : Workout :=
  { id := "w1"
    started_at := "2026-01-01T10:00:00Z"
    from_template_id := none
    focus_exercise := some "squat"
    exercises := [c6Exercise1, c6Exercise2] }

/-- Projections of the partial-modify example. -/
def c6Projections : Projections :=
  { current_workout := some c6Workout
    workout_history := []
    workout_templates := [] }

/-- A `SetModified` payload supplying only `reps`. -/
def repsOnlyModifyPayload : SetModifiedPayload :=
  { workout_id := "w1", original_event_id := "sT",
    weight := none, reps := some 12, unit := none }

/-- Legacy-format `TemplateCreated` payload for the lifecycle scenario. -/
def lifecycleCreatePayload : TemplateCreatedPayload :=
  { template_id := "T1"
    name := "Leg Day"
    exercise_ids := some ["squat"]
    exercises := none
    source_workout_id := none }

/-- Engine state after `TemplateCreated` for `T1` on a fresh user. -/
def afterCreateT1 : EngineState :=
  (emit_event (.templateCreated lifecycleCreatePayload) "e1" "t1" initialState).1

/-- Engine state after `TemplateCreated` then `TemplateDeleted` for `T1`. -/
def afterDeleteT1 : EngineState :=
  (emit_event (.templateDeleted { template_id := "T1" }) "e2" "t2" afterCreateT1).1

/-- Template with a non-empty id used for the usage-tracking witness. -/
def usageTemplate : Template :=
  { id := "T1"
    name := "Push"
    exercise_ids := some ["bench-press"]
    source_workout_id := none
    created_at := "2026-01-01T09:00:00Z"
    last_used_at := none
    updated_at := none
    use_count := 3 }

/-- Projections holding only `usageTemplate`, no active workout. -/
def usageProjections : Projections :=
  { current_workout := none
    workout_history := []
    workout_templates := [usageTemplate] }

/-- A `WorkoutStarted` payload starting from `usageTemplate`. -/
def startFromUsagePayload : WorkoutStartedPayload :=
  { workout_id := "w2"
    name := none
    from_template_id := some "T1"
    exercise_ids := some ["bench-press"] }

/-- C1: for every user and every sequence of accepted events, at most one
`current_workout` projection exists at any point (the projection slot is a
single keyed row, so any two active workouts read from it coincide), and an
attempt to emit `WorkoutStarted` while a `current_workout` is active is
always rejected with a precondition violation and leaves the engine state —
event log and all projections — unchanged. -/
theorem c1_single_active_workout :
    (∀ st : EngineState, Reachable st → ∀ w₁ w₂ : Workout,
      st.proj.current_workout = some w₁ → st.proj.current_workout = some w₂ →
      w₁ = w₂) ∧
    (∀ (st : EngineState) (p : WorkoutStartedPayload) (eid ts : String)
      (w : Workout), st.proj.current_workout = some w →
      emit_event (.workoutStarted p) eid ts st =
        (st, .error (.preconditionViolation
          "Cannot start workout: workout already in progress"))) := by
  constructor
  · intro st _ w₁ w₂ h₁ h₂
    rw [h₁] at h₂
    exact Option.some.inj h₂
  · intro st p eid ts w h
    have hv : validate_event_preconditions (.workoutStarted p) st.proj =
        .error "Cannot start workout: workout already in progress" := by
      unfold validate_event_preconditions
      rw [h]
    simp [emit_event, validate_payload_ok, hv]

/-- Witness for C1 at a concrete active state. -/
theorem c1_single_active_workout_witness :
    emit_event
        (.workoutStarted
          { workout_id := "w2", name := none, from_template_id := none,
            exercise_ids := none }) "e2" "t2" sampleActiveState =
      (sampleActiveState, .error (.preconditionViolation
        "Cannot start workout: workout already in progress")) :=
  c1_single_active_workout.2 sampleActiveState _ "e2" "t2" sampleWorkout rfl

/-- C2: for every reachable engine state (any user, any ordered sequence of
`emit_event` calls), folding the stored event log through the projection
updater starting from empty projections reproduces the live projections —
and since every intermediate state is itself reachable, this holds at every
prefix of the sequence. -/
theorem c2_replay_determinism (st : EngineState) (h : Reachable st) :
    replay st.events = st.proj := by
  induction h with
  | init => rfl
  | step ev eid ts st h ih =>
    unfold emit_event
    split
    · split
      · exact ih
      · show replay (st.events ++
            [{ event_id := eid, timestamp := ts, payload := ev }]) =
          (update_projections ev eid ts st.proj).1
        simp only [replay] at ih ⊢
        rw [List.foldl_append, ih]
        rfl
    · exact ih

/-- Witness for C2 at a concrete reachable state (one accepted event). -/
theorem c2_replay_determinism_witness :
    replay (emit_event (.templateCreated lifecycleCreatePayload) "e1" "t1"
        initialState).1.events =
      (emit_event (.templateCreated lifecycleCreatePayload) "e1" "t1"
        initialState).1.proj :=
  c2_replay_determinism _ (Reachable.step _ _ _ _ Reachable.init)

/-- C3: every `emit_event` call either commits — the event is appended to
the log and the projections are replaced by the fold of the event — or
rejects and leaves the engine state exactly as it was; in particular a
schema-validation failure or a precondition failure returns the unchanged
state with the corresponding error. -/
theorem c3_emit_atomicity (ev : EventPayload) (eid ts : String)
    (st : EngineState) :
    (((emit_event ev eid ts st).2 =
        .ok ({ event_id := eid, timestamp := ts, payload := ev },
          (update_projections ev eid ts st.proj).2) ∧
      (emit_event ev eid ts st).1.events =
        st.events ++ [{ event_id := eid, timestamp := ts, payload := ev }] ∧
      (emit_event ev eid ts st).1.proj =
        (update_projections ev eid ts st.proj).1) ∨
     ((emit_event ev eid ts st).2.isOk = false ∧
      (emit_event ev eid ts st).1 = st)) ∧
    (validate_payload_ok ev = false →
      emit_event ev eid ts st = (st, .error .schemaInvalid)) ∧
    (validate_payload_ok ev = true →
      ∀ m, validate_event_preconditions ev st.proj = .error m →
      emit_event ev eid ts st = (st, .error (.preconditionViolation m))) := by
  refine ⟨?_, ?_, ?_⟩
  · unfold emit_event
    split
    · split
      · exact Or.inr ⟨rfl, rfl⟩
      · exact Or.inl ⟨rfl, rfl, rfl⟩
    · exact Or.inr ⟨rfl, rfl⟩
  · intro h
    simp [emit_event, h]
  · intro hv m hm
    simp [emit_event, hv, hm]

/-- Witness for C3: a schema-invalid `SetLogged` (weight 0) and a
precondition-violating `ExerciseAdded` (no active workout) both leave the
state unchanged. -/
theorem c3_emit_atomicity_witness :
    emit_event
        (.setLogged
          { workout_id := "w1", exercise_id := "bench-press", weight := 0,
            reps := 5, unit := .kg }) "e1" "t1" sampleActiveState =
      (sampleActiveState, .error .schemaInvalid) ∧
    emit_event (.exerciseAdded { workout_id := "w1", exercise_id := "squat" })
        "e1" "t1" initialState =
      (initialState,
        .error (.preconditionViolation "Cannot add exercise: no active workout")) :=
  ⟨(c3_emit_atomicity
      (.setLogged
        { workout_id := "w1", exercise_id := "bench-press", weight := 0,
          reps := 5, unit := .kg }) "e1" "t1" sampleActiveState).2.1 (by decide),
   (c3_emit_atomicity
      (.exerciseAdded { workout_id := "w1", exercise_id := "squat" })
      "e1" "t1" initialState).2.2 rfl _ rfl⟩

/-- C10: applying the projection updater to `ExerciseAdded`, `SetLogged`,
`SetModified` or `SetDeleted` when no `current_workout` projection exists is
a total no-op: every projection is unchanged and no derived data is
returned. -/
theorem c10_no_active_workout_noop (proj : Projections) (eid ts : String)
    (pe : ExerciseAddedPayload) (ps : SetLoggedPayload)
    (pm : SetModifiedPayload) (pd : SetDeletedPayload)
    (h : proj.current_workout = none) :
    update_projections (.exerciseAdded pe) eid ts proj = (proj, none) ∧
    update_projections (.setLogged ps) eid ts proj = (proj, none) ∧
    update_projections (.setModified pm) eid ts proj = (proj, none) ∧
    update_projections (.setDeleted pd) eid ts proj = (proj, none) := by
  refine ⟨?_, ?_, ?_, ?_⟩ <;> simp [update_projections, h]

/-- Witness for C10 at the empty projection set. -/
theorem c10_no_active_workout_noop_witness :
    update_projections
        (.exerciseAdded { workout_id := "w1", exercise_id := "squat" })
        "e1" "t1" emptyProjections = (emptyProjections, none) ∧
    update_projections
        (.setLogged
          { workout_id := "w1", exercise_id := "squat", weight := 50,
            reps := 5, unit := .kg }) "e1" "t1" emptyProjections =
      (emptyProjections, none) ∧
    update_projections (.setModified repsOnlyModifyPayload) "e1" "t1"
        emptyProjections = (emptyProjections, none) ∧
    update_projections
        (.setDeleted
          { workout_id := "w1", original_event_id := "sT", reason := none })
        "e1" "t1" emptyProjections =
      (emptyProjections, none) :=
  c10_no_active_workout_noop emptyProjections "e1" "t1" _ _ _ _ rfl

/-- The `set_found` scan is false exactly when no set of any exercise of
the workout carries the handle. -/
theorem workoutHasSetWithId_eq_false (w : Workout) (oid : String)
    (h : ∀ e ∈ w.exercises, ∀ s ∈ e.sets, s.event_id ≠ oid) :
    workoutHasSetWithId w oid = false := by
  simp only [workoutHasSetWithId, List.any_eq_false, List.any_eq_true,
    beq_iff_eq, not_exists, not_and]
  exact h

/-- C5: in any state with an active workout, a `SetModified` or
`SetDeleted` event whose `original_event_id` equals no set's `event_id`
anywhere in the active workout is rejected by the precondition validator
(every such rejection surfaces as a `PreconditionViolation`). -/
theorem c5_unknown_set_handle_rejected (proj : Projections) (cur : Workout)
    (pm : SetModifiedPayload) (pd : SetDeletedPayload)
    (hcur : proj.current_workout = some cur)
    (hm : ∀ e ∈ cur.exercises, ∀ s ∈ e.sets, s.event_id ≠ pm.original_event_id)
    (hd : ∀ e ∈ cur.exercises, ∀ s ∈ e.sets, s.event_id ≠ pd.original_event_id) :
    (∃ m, validate_event_preconditions (.setModified pm) proj = .error m) ∧
    (∃ m, validate_event_preconditions (.setDeleted pd) proj = .error m) := by
  constructor
  · by_cases hw : pm.workout_id = cur.id
    · refine ⟨"Set with event_id " ++ pm.original_event_id ++
        " not found in current workout", ?_⟩
      simp [validate_event_preconditions, hcur, hw,
        workoutHasSetWithId_eq_false cur pm.original_event_id hm]
    · refine ⟨"Event workout_id " ++ pm.workout_id ++
        " does not match current workout " ++ cur.id, ?_⟩
      simp [validate_event_preconditions, hcur, hw]
  · by_cases hw : pd.workout_id = cur.id
    · refine ⟨"Set with event_id " ++ pd.original_event_id ++
        " not found in current workout", ?_⟩
      simp [validate_event_preconditions, hcur, hw,
        workoutHasSetWithId_eq_false cur pd.original_event_id hd]
    · refine ⟨"Event workout_id " ++ pd.workout_id ++
        " does not match current workout " ++ cur.id, ?_⟩
      simp [validate_event_preconditions, hcur, hw]

/-- Witness for C5: handle `zzz` exists nowhere in the sample workout. -/
theorem c5_unknown_set_handle_rejected_witness :
    (∃ m, validate_event_preconditions
      (.setModified
        { workout_id := "w1", original_event_id := "zzz", weight := none,
          reps := some 12, unit := none }) sampleActiveState.proj = .error m) ∧
    (∃ m, validate_event_preconditions
      (.setDeleted
        { workout_id := "w1", original_event_id := "zzz", reason := none })
      sampleActiveState.proj = .error m) :=
  c5_unknown_set_handle_rejected sampleActiveState.proj sampleWorkout _ _ rfl
    (by decide) (by decide)

/-- C7: `TemplateCreated` with an already-present template id is rejected
with a precondition violation, and `TemplateUpdated`/`TemplateDeleted` with
an absent template id are rejected with a precondition violation — so after
`TemplateCreated T1` and `TemplateDeleted T1`, a `TemplateUpdated T1`
fails. -/
theorem c7_template_lifecycle :
    (∀ (proj : Projections) (pc : TemplateCreatedPayload),
      (∃ t ∈ proj.workout_templates, t.id = pc.template_id) →
      validate_event_preconditions (.templateCreated pc) proj =
        .error ("Template " ++ pc.template_id ++ " already exists")) ∧
    (∀ (proj : Projections) (pu : TemplateUpdatedPayload),
      (∀ t ∈ proj.workout_templates, t.id ≠ pu.template_id) →
      validate_event_preconditions (.templateUpdated pu) proj =
        .error ("Template " ++ pu.template_id ++ " not found")) ∧
    (∀ (proj : Projections) (pd : TemplateDeletedPayload),
      (∀ t ∈ proj.workout_templates, t.id ≠ pd.template_id) →
      validate_event_preconditions (.templateDeleted pd) proj =
        .error ("Template " ++ pd.template_id ++ " not found")) := by
  refine ⟨?_, ?_, ?_⟩
  · intro proj pc h
    obtain ⟨t, ht, hid⟩ := h
    have hc : proj.workout_templates.any (fun t => t.id == pc.template_id) = true :=
      List.any_eq_true.mpr ⟨t, ht, by simp [hid]⟩
    simp [validate_event_preconditions, hc]
  · intro proj pu h
    have hc : proj.workout_templates.any (fun t => t.id == pu.template_id) = false := by
      simp only [List.any_eq_false, beq_iff_eq]
      exact h
    simp [validate_event_preconditions, hc]
  · intro proj pd h
    have hc : proj.workout_templates.any (fun t => t.id == pd.template_id) = false := by
      simp only [List.any_eq_false, beq_iff_eq]
      exact h
    simp [validate_event_preconditions, hc]

/-- Witness for C7: the concrete lifecycle — after creating `T1` a second
creation is rejected; after creating then deleting `T1`, both update and
delete are rejected. -/
theorem c7_template_lifecycle_witness :
    validate_event_preconditions (.templateCreated lifecycleCreatePayload)
        afterCreateT1.proj =
      .error ("Template " ++ "T1" ++ " already exists") ∧
    validate_event_preconditions
        (.templateUpdated
          { template_id := "T1", name := some "X", exercise_ids := none,
            exercises := none }) afterDeleteT1.proj =
      .error ("Template " ++ "T1" ++ " not found") ∧
    validate_event_preconditions (.templateDeleted { template_id := "T1" })
        afterDeleteT1.proj =
      .error ("Template " ++ "T1" ++ " not found") :=
  ⟨c7_template_lifecycle.1 afterCreateT1.proj lifecycleCreatePayload
      (by decide),
   c7_template_lifecycle.2.1 afterDeleteT1.proj _ (by decide),
   c7_template_lifecycle.2.2 afterDeleteT1.proj _ (by decide)⟩

/-- C4: completing an active workout attaches stats with
`total_sets` the sum of the set counts, `total_volume` the sum over all sets
of the kilogram-normalized weight times the reps (pound weights scaled by
0.453592), and `exercise_count` the number of distinct exercises touched
(the exercise entries, whose ids are distinct); the same totals are returned
to the caller as derived data and the entry is pushed onto the front of the
history. -/
theorem c4_completion_stats (proj : Projections) (cur : Workout)
    (p : WorkoutCompletedPayload) (eid ts : String)
    (hcur : proj.current_workout = some cur)
    (hnodup : (cur.exercises.map Exercise.exercise_id).Nodup) :
    (update_projections (.workoutCompleted p) eid ts proj).2 =
      some { total_sets := (cur.exercises.map (fun e => e.sets.length)).sum
             total_volume := (cur.exercises.map (fun e =>
               (e.sets.map (fun s =>
                 (if s.unit = WeightUnit.kg then s.weight
                  else s.weight * (0.453592 : ℚ)) * (s.reps : ℚ))).sum)).sum } ∧
    (update_projections (.workoutCompleted p) eid ts proj).1.workout_history =
      { workout := cur
        completed_at := ts
        notes := p.notes
        stats :=
          { exercise_count := ((cur.exercises.map Exercise.exercise_id).dedup).length
            total_sets := (cur.exercises.map (fun e => e.sets.length)).sum
            total_volume := (cur.exercises.map (fun e =>
              (e.sets.map (fun s =>
                (if s.unit = WeightUnit.kg then s.weight
                 else s.weight * (0.453592 : ℚ)) * (s.reps : ℚ))).sum)).sum } } ::
        proj.workout_history := by
  have hcount : ((cur.exercises.map Exercise.exercise_id).dedup).length =
      cur.exercises.length := by
    rw [List.dedup_eq_self.mpr hnodup, List.length_map]
  constructor
  · unfold update_projections
    rw [hcur]
    rfl
  · unfold update_projections
    rw [hcur, hcount]
    rfl

/-- Witness for C4: the spec's example — one set `100 kg × 8` and one set
`50 lb × 10` in two distinct exercises — completes with
`total_volume = 1026.796`, `total_sets = 2`, `exercise_count = 2`. -/
theorem c4_completion_stats_witness :
    (update_projections (.workoutCompleted { workout_id := "w1", notes := none })
        "e9" "t9" volumeExampleProjections).2 =
      some { total_sets := 2, total_volume := (1026.796 : ℚ) } ∧
    (update_projections (.workoutCompleted { workout_id := "w1", notes := none })
        "e9" "t9" volumeExampleProjections).2 =
      some { total_sets :=
               (volumeExampleWorkout.exercises.map (fun e => e.sets.length)).sum
             total_volume := (volumeExampleWorkout.exercises.map (fun e =>
               (e.sets.map (fun s =>
                 (if s.unit = WeightUnit.kg then s.weight
                  else s.weight * (0.453592 : ℚ)) * (s.reps : ℚ))).sum)).sum } := by
  have h := (c4_completion_stats volumeExampleProjections volumeExampleWorkout
    { workout_id := "w1", notes := none } "e9" "t9" rfl (by decide)).1
  refine ⟨?_, h⟩
  rw [h]
  norm_num [volumeExampleWorkout]
  rw [if_neg (by decide : ¬(WeightUnit.lb = WeightUnit.kg))]
  norm_num

/-- The inner `SetModified` scan leaves a set list untouched (and reports
no modification) when no set matches the handle. -/
theorem modifySetInList_of_no_match (p : SetModifiedPayload) :
    ∀ l : List SetEntry, (∀ s ∈ l, s.event_id ≠ p.original_event_id) →
      modifySetInList p l = (l, false)
  | [], _ => rfl
  | s :: rest, h => by
    have hs : (s.event_id == p.original_event_id) = false := by
      simp [h s (List.mem_cons_self s rest)]
    simp only [modifySetInList, hs, Bool.false_eq_true, if_false,
      modifySetInList_of_no_match p rest
        (fun s' hs' => h s' (List.mem_cons_of_mem s hs'))]

/-- The inner `SetModified` scan modifies exactly the first matching set
and leaves every set before and after it untouched. -/
theorem modifySetInList_first_match (p : SetModifiedPayload) (s : SetEntry)
    (spost : List SetEntry) (hs : s.event_id = p.original_event_id) :
    ∀ spre : List SetEntry,
      (∀ s' ∈ spre, s'.event_id ≠ p.original_event_id) →
      modifySetInList p (spre ++ s :: spost) =
        (spre ++ applySetMods p s :: spost, true)
  | [], _ => by
    simp [modifySetInList, hs]
  | a :: as, h => by
    have ha : (a.event_id == p.original_event_id) = false := by
      simp [h a (List.mem_cons_self a as)]
    have ih := modifySetInList_first_match p s spost hs as
      (fun s' hs' => h s' (List.mem_cons_of_mem a hs'))
    simp only [List.cons_append, modifySetInList, ha, Bool.false_eq_true,
      if_false, List.append_eq, ih]

/-- The outer `SetModified` scan skips exercises with no matching set and
rewrites the first exercise whose scan succeeds, leaving all later
exercises untouched. -/
theorem modifySetInExercises_first_match (p : SetModifiedPayload)
    (e : Exercise) (post : List Exercise) (l : List SetEntry)
    (hmatch : modifySetInList p e.sets = (l, true)) :
    ∀ pre : List Exercise,
      (∀ e' ∈ pre, ∀ s' ∈ e'.sets, s'.event_id ≠ p.original_event_id) →
      modifySetInExercises p (pre ++ e :: post) =
        pre ++ { e with sets := l } :: post
  | [], _ => by
    simp [modifySetInExercises, hmatch]
  | a :: as, h => by
    have ha := modifySetInList_of_no_match p a.sets
      (h a (List.mem_cons_self a as))
    simp only [List.cons_append, modifySetInExercises, ha,
      Bool.false_eq_true, if_false, List.cons.injEq, true_and]
    exact modifySetInExercises_first_match p e post l hmatch as
      (fun e' he' => h e' (List.mem_cons_of_mem a he'))

/-- C6: an accepted `SetModified` supplying only `reps` rewrites exactly the
targeted set (the first set carrying the handle), overwriting its `reps`
and leaving its `weight`, `unit` and `event_id` unchanged; every other set,
every other exercise, the workout's other fields, and the other projections
are unchanged, and no derived data is returned. -/
theorem c6_partial_modify (proj : Projections) (cur : Workout)
    (p : SetModifiedPayload) (eid ts : String) (r : ℕ)
    (pre post : List Exercise) (e : Exercise)
    (spre spost : List SetEntry) (s : SetEntry)
    (hcur : proj.current_workout = some cur)
    (hw : p.weight = none) (hu : p.unit = none) (hr : p.reps = some r)
    (hex : cur.exercises = pre ++ e :: post)
    (hsets : e.sets = spre ++ s :: spost)
    (hs : s.event_id = p.original_event_id)
    (hpre : ∀ e' ∈ pre, ∀ s' ∈ e'.sets, s'.event_id ≠ p.original_event_id)
    (hspre : ∀ s' ∈ spre, s'.event_id ≠ p.original_event_id) :
    update_projections (.setModified p) eid ts proj =
      ({ proj with
          current_workout := some { cur with
            exercises :=
              pre ++ { e with sets := spre ++ { s with reps := r } :: spost } :: post } },
        none) := by
  have hmods : applySetMods p s = { s with reps := r } := by
    simp [applySetMods, hw, hu, hr]
  have hlist : modifySetInList p e.sets =
      (spre ++ applySetMods p s :: spost, true) := by
    rw [hsets]
    exact modifySetInList_first_match p s spost hs spre hspre
  have hexs : modifySetInExercises p cur.exercises =
      pre ++ { e with sets := spre ++ { s with reps := r } :: spost } :: post := by
    rw [hex, modifySetInExercises_first_match p e post _ hlist pre hpre, hmods]
  simp [update_projections, hcur, hexs]

/-- Witness for C6: modifying set `sT` (reps 5 → 12) in the second exercise
leaves the bystander sets, the first exercise, and its own weight and unit
unchanged. -/
theorem c6_partial_modify_witness :
    update_projections (.setModified repsOnlyModifyPayload) "e1" "t1"
        c6Projections =
      ({ c6Projections with
          current_workout := some { c6Workout with
            exercises :=
              [c6Exercise1] ++
                { c6Exercise2 with
                    sets := [c6OtherSetB] ++ { c6TargetSet with reps := 12 } ::
                      [c6OtherSetC] } :: [] } },
        none) :=
  c6_partial_modify c6Projections c6Workout repsOnlyModifyPayload "e1" "t1" 12
    [c6Exercise1] [] c6Exercise2 [c6OtherSetB] [c6OtherSetC] c6TargetSet
    rfl rfl rfl rfl rfl rfl rfl (by decide) (by decide)

/-- The template-usage loop stamps and increments exactly the first
template whose id matches, leaving every other template untouched. -/
theorem bumpTemplateUsage_first_match (tid ts : String) (t : Template)
    (post : List Template) (ht : t.id = tid) :
    ∀ pre : List Template, (∀ t' ∈ pre, t'.id ≠ tid) →
      bumpTemplateUsage tid ts (pre ++ t :: post) =
        pre ++ { t with last_used_at := some ts, use_count := t.use_count + 1 } :: post
  | [], _ => by
    simp [bumpTemplateUsage, ht]
  | a :: as, h => by
    have ha : (a.id == tid) = false := by
      simp [h a (List.mem_cons_self a as)]
    have ih := bumpTemplateUsage_first_match tid ts t post ht as
      (fun t' ht' => h t' (List.mem_cons_of_mem a ht'))
    simp only [List.cons_append, bumpTemplateUsage, ha, Bool.false_eq_true,
      if_false, List.append_eq, ih]

/-- C8 (amended): an accepted `WorkoutStarted` carrying a non-empty
`from_template_id` that matches a template increments the first matching
template's `use_count` by exactly 1 and sets its `last_used_at` to the
event timestamp while every other template is unchanged; a `WorkoutStarted`
without `from_template_id` changes no template. -/
theorem c8_template_usage :
    (∀ (proj : Projections) (eid ts : String) (p : WorkoutStartedPayload)
       (tid : String) (pre post : List Template) (t : Template),
      p.from_template_id = some tid → tid ≠ "" →
      proj.workout_templates = pre ++ t :: post → t.id = tid →
      (∀ t' ∈ pre, t'.id ≠ tid) →
      (update_projections (.workoutStarted p) eid ts proj).1.workout_templates =
        pre ++ { t with last_used_at := some ts, use_count := t.use_count + 1 } :: post) ∧
    (∀ (proj : Projections) (eid ts : String) (p : WorkoutStartedPayload),
      p.from_template_id = none →
      (update_projections (.workoutStarted p) eid ts proj).1.workout_templates =
        proj.workout_templates) := by
  constructor
  · intro proj eid ts p tid pre post t htid hne hdecomp ht hpre
    simp only [update_projections, htid, hne, if_true, ne_eq,
      not_false_iff, if_pos]
    rw [hdecomp]
    exact bumpTemplateUsage_first_match tid ts t post ht pre hpre
  · intro proj eid ts p htid
    simp [update_projections, htid]

/-- Counterexample for C8 as stated: a template whose id is the empty
string is matched by `from_template_id = some ""` on an accepted
`WorkoutStarted`, yet its `use_count` stays 0 (the code's
`if from_template_id:` treats the empty string as falsy and skips the
bump). -/
theorem c8_template_usage_counterexample :
    startFromEmptyIdPayload.from_template_id = some emptyIdTemplate.id ∧
    emptyIdTemplateState.proj.workout_templates = [emptyIdTemplate] ∧
    (emit_event (.workoutStarted startFromEmptyIdPayload) "e1" "t1"
        emptyIdTemplateState).2 =
      .ok ({ event_id := "e1", timestamp := "t1",
             payload := .workoutStarted startFromEmptyIdPayload }, none) ∧
    (emit_event (.workoutStarted startFromEmptyIdPayload) "e1" "t1"
        emptyIdTemplateState).1.proj.workout_templates = [emptyIdTemplate] ∧
    emptyIdTemplate.use_count = 0 :=
  ⟨rfl, rfl, rfl, rfl, rfl⟩

/-- Witness for C8 (amended) at a concrete non-empty template id, and a
concrete start without a template. -/
theorem c8_template_usage_witness :
    (update_projections (.workoutStarted startFromUsagePayload) "e1" "ts1"
        usageProjections).1.workout_templates =
      [] ++ { usageTemplate with
                last_used_at := some "ts1"
                use_count := usageTemplate.use_count + 1 } :: [] ∧
    (update_projections
        (.workoutStarted
          { workout_id := "w3", name := none, from_template_id := none,
            exercise_ids := none }) "e2" "ts2"
        usageProjections).1.workout_templates =
      usageProjections.workout_templates :=
  ⟨c8_template_usage.1 usageProjections "e1" "ts1" startFromUsagePayload "T1"
      [] [] usageTemplate rfl (by decide) rfl rfl (by decide),
   c8_template_usage.2 usageProjections "e2" "ts2" _ rfl⟩

/-- C9 (code bug): a `TemplateCreated` payload supplying its exercise list
in the new `exercises` form (and no legacy `exercise_ids`) is accepted, but
the record inserted into `workout_templates` carries `exercise_ids = none`
and — since the inserted dict literal has no `exercises` key at all (see
`Template`) — no exercise list whatsoever; only `created_at` is set to the
event timestamp as claimed. -/
theorem c9_new_format_exercise_list_dropped :
    newFormatTemplatePayload.exercises = some [{ exercise_id := "bench-press" }] ∧
    newFormatTemplatePayload.exercise_ids = none ∧
    (emit_event (.templateCreated newFormatTemplatePayload) "e1" "ts1"
        initialState).2 =
      .ok ({ event_id := "e1", timestamp := "ts1",
             payload := .templateCreated newFormatTemplatePayload }, none) ∧
    (emit_event (.templateCreated newFormatTemplatePayload) "e1" "ts1"
        initialState).1.proj.workout_templates =
      [{ id := "T1", name := "Push Day", exercise_ids := none,
         source_workout_id := none, created_at := "ts1", last_used_at := none,
         updated_at := none, use_count := 0 }] :=
  ⟨rfl, rfl, rfl, rfl⟩

end GymApp
